import Mathlib

/-!
Shallow embedding of the Reddit Authority Agent (src/api/agent.py and
src/api/config.py) and proofs about its ingestion cycle, store helpers,
HTTP handlers and auth middleware.

Modelling conventions:
* Firestore documents are association lists from field names to `Value`s;
  the store is an association list from document ids to documents
  (one fixed collection, `artifacts/{app}/public/data/reddit_posts`).
* `firestore.SERVER_TIMESTAMP` is the sentinel `Value.serverTimestamp`;
  the store resolves every sentinel in a written payload to the wall-clock
  value `Value.timeV now` of the write, mirroring server-side resolution.
* Python truthiness of an optional string (`None` and `""` are falsy) is
  `pyTruthyOptStr`; `str(x)` on an optional value is `pyStrOfOpt`
  (maps `None` to the literal string "None").
* Exceptions are `Except String` values; a `try/except Exception as e`
  block is a `match` on the `Except`, with `str(e)` the carried message.
* The PRAW handle is a function `subreddit_new : Nat → Except String
  (List Submission)`: fetching the newest submissions either yields a
  list or raises. The Firestore handle is the store state itself; an
  uninitialized client (`None` in Python) is `none` in `Option`.
-/

namespace RedditAgent

/-- Field values of a Firestore document / JSON body, as used by agent.py. -/
inductive Value where
  | nullV : Value
  | boolV : Bool → Value
  | strV : String → Value
  | numV : Int → Value
  | serverTimestamp : Value
  | timeV : Nat → Value
deriving DecidableEq

/-- A Firestore document (a Python dict of field values). -/
abbrev Doc := List (String × Value)

/-- First-match association lookup (Python dict read / Firestore doc get). -/
def assocGet {β : Type} (l : List (String × β)) (k : String) : Option β :=
  match l with
  | [] => none
  | (k', v) :: rest => if k' = k then some v else assocGet rest k

/-- Replace the first binding of `k`, or append one (Python dict write). -/
def assocSet {β : Type} (l : List (String × β)) (k : String) (v : β) :
    List (String × β) :=
  match l with
  | [] => [(k, v)]
  | (k', v') :: rest =>
    if k' = k then (k', v) :: rest else (k', v') :: assocSet rest k v

/-- Field read on a document. -/
def getField (d : Doc) (k : String) : Option Value := assocGet d k

/-- Field write on a document. -/
def setField (d : Doc) (k : String) (v : Value) : Doc := assocSet d k v

/-- Python `d[k]`: the value, or a raised `KeyError` whose `str` is the
quoted key. -/
def dict_getitem (d : Doc) (k : String) : Except String Value :=
  match getField d k with
  | some v => Except.ok v
  | none => Except.error ("\x27" ++ k ++ "\x27")

/-- `{**d, **upd}`: right-biased merge of two dicts. -/
def mergeDoc (d : Doc) (upd : Doc) : Doc :=
  upd.foldl (fun acc kv => setField acc kv.1 kv.2) d

/-- Server-side resolution of `SERVER_TIMESTAMP` sentinels in a written
payload: each sentinel becomes the time of the write. -/
def resolveDoc (now : Nat) (d : Doc) : Doc :=
  d.map (fun kv => (kv.1, if kv.2 = Value.serverTimestamp then Value.timeV now else kv.2))

/-- The single Firestore collection agent.py works in, keyed by post id. -/
abbrev Store := List (String × Doc)

/-- Python truthiness of an optional string: `None` and `""` are falsy. -/
def pyTruthyOptStr (s : Option String) : Bool :=
  match s with
  | none => false
  | some s => !s.isEmpty

/-- Python `str` on an optional value: `None` prints as "None". -/
def pyStrOfOpt (s : Option String) : String :=
  match s with
  | none => "None"
  | some s => s

/-- The `PostStatus` enum of agent.py. -/
inductive PostStatus where
  | NEW
  | ANALYSIS_PENDING
  | APPROVED
  | REJECTED
  | DEPLOYED
deriving DecidableEq

/-- `PostStatus.<member>.value`. -/
def PostStatus.value : PostStatus → String
  | .NEW => "New"
  | .ANALYSIS_PENDING => "AnalysisPending"
  | .APPROVED => "Approved"
  | .REJECTED => "Rejected"
  | .DEPLOYED => "Deployed"

/-- Enum members in declaration order (Python `for status in PostStatus`). -/
def PostStatus.members : List PostStatus :=
  [.NEW, .ANALYSIS_PENDING, .APPROVED, .REJECTED, .DEPLOYED]

/-- `valid_statuses = [status.value for status in PostStatus]`
(computed inside update_post). -/
def valid_statuses : List String := PostStatus.members.map PostStatus.value

/-- `get_firestore_collection_path()` for a given `APP_ID`. -/
def get_firestore_collection_path (app_id : String) : String :=
  "artifacts/" ++ app_id ++ "/public/data/reddit_posts"

/-- A PRAW submission as consumed by run_agent_cycle: the fields read from
it. `author` is optional (a deleted author is `None`). -/
structure Submission where
  id : String
  title : String
  selftext : String
  url : String
  author : Option String
  created_utc : Int
  stickied : Bool
  removed_by_category : Option String
  is_self : Bool
deriving DecidableEq

/-- The `post_data` dict built from a submission in run_agent_cycle. -/
structure PostData where
  title : String
  body : String
  url : String
  author : String
  created_utc : Int
deriving DecidableEq

/-- `post_data = {...}` at agent.py lines 184-190. -/
def post_data_of (s : Submission) : PostData :=
  { title := s.title
    body := s.selftext
    url := s.url
    author := pyStrOfOpt s.author
    created_utc := s.created_utc }

/-- The `new_post_data` dict built by fetch_or_initialize_post. -/
def new_post_data (data : PostData) : Doc :=
  [ ("title", Value.strV data.title)
  , ("body", Value.strV data.body)
  , ("url", Value.strV data.url)
  , ("author", Value.strV data.author)
  , ("created_utc", Value.numV data.created_utc)
  , ("status", Value.strV PostStatus.NEW.value)
  , ("analysis_result", Value.nullV)
  , ("deployment_id", Value.nullV)
  , ("ingested_at", Value.serverTimestamp) ]

/-- agent.py `fetch_or_initialize_post(db, post_id, data)`: returns the
existing document unchanged if `post_id` is present, else writes (and
returns) a fresh record with status `New`. The returned pair is
(the dict the function returns, the store after the call); `now` is the
server clock resolving `SERVER_TIMESTAMP` on the write. -/
def fetch_or_initialize_post (store : Store) (post_id : String)
    (data : PostData) (now : Nat) : Doc × Store :=
  match assocGet store post_id with
  | some doc => (doc, store)
  | none =>
    (new_post_data data, assocSet store post_id (resolveDoc now (new_post_data data)))

/-- `collection_ref.where(field, "==", v).limit(lim).stream()`: documents
whose field equals the value, in store-native order, at most `lim`. -/
def collection_where (store : Store) (field : String) (v : Value) (lim : Nat) :
    List Doc :=
  (((store.map Prod.snd).filter (fun d => getField d field = some v)).take lim)

/-- The filter of the ingestion loop as a predicate: not stickied, not
(truthily) removed by moderation, and a self post. -/
def passes_filters (s : Submission) : Bool :=
  !(s.stickied || pyTruthyOptStr s.removed_by_category) && s.is_self

/-- Whether the record stored for a submission's id currently reads
status `New`. -/
def status_is_new (store : Store) (s : Submission) : Bool :=
  match assocGet store s.id with
  | some d => decide (getField d "status" = some (Value.strV "New"))
  | none => false

/-- Whether an update payload passes the status validation of update_post
(no status key, or a value inside the enum). -/
def status_value_valid (data : Doc) : Bool :=
  match getField data "status" with
  | none => true
  | some v => (valid_statuses.map Value.strV).contains v

/-- The PRAW handle as used by the cycle: `subreddit.new(limit)` either
yields the fetched submissions or raises with a message. -/
structure RedditHandle where
  subreddit_new : Nat → Except String (List Submission)

/-- The dict run_agent_cycle returns: `{"status": "error", "message": m}`
or `{"status": "success", "new_posts_found": n, "approved_posts_count": a,
"timestamp": t}`. -/
inductive CycleResult where
  | err (message : String)
  | success (new_posts_found : Nat) (approved_posts_count : Nat) (timestamp : String)
deriving DecidableEq

/-- The `for submission in subreddit.new(limit=25)` loop of
run_agent_cycle (agent.py lines 175-197): skips stickied or
moderator-removed (truthy `removed_by_category`) submissions and link
posts, get-or-creates a record for the rest, and increments the counter
when the resulting dict reads status `New`. A `KeyError` on the status
read propagates as an exception (first component), with the store writes
made so far kept (second component). -/
def ingest_loop (now : Nat) (store : Store) :
    List Submission → Except String Nat × Store
  | [] => (Except.ok 0, store)
  | s :: rest =>
    if s.stickied || pyTruthyOptStr s.removed_by_category then
      ingest_loop now store rest
    else if !s.is_self then
      ingest_loop now store rest
    else
      let pr := fetch_or_initialize_post store s.id (post_data_of s) now
      match dict_getitem pr.1 "status" with
      | Except.error e => (Except.error e, pr.2)
      | Except.ok v =>
        let r := ingest_loop now pr.2 rest
        ( match r.1 with
          | Except.ok n =>
            Except.ok (if v = Value.strV PostStatus.NEW.value then n + 1 else n)
          | Except.error e => Except.error e
        , r.2)

/-- agent.py `run_agent_cycle(db, reddit)`. `now` is the server clock for
`SERVER_TIMESTAMP` resolution and `nowIso` the `datetime.utcnow().isoformat()`
string. Returns the result dict together with the store after the cycle
(`db` unchanged when no connection). -/
def run_agent_cycle (db : Option Store) (reddit : Option RedditHandle)
    (now : Nat) (nowIso : String) : CycleResult × Option Store :=
  match db, reddit with
  | some store, some r =>
    let approved_count :=
      (collection_where store "status" (Value.strV PostStatus.APPROVED.value) 5).length
    match r.subreddit_new 25 with
    | Except.error e => (CycleResult.err e, some store)
    | Except.ok subs =>
      let ir := ingest_loop now store subs
      match ir.1 with
      | Except.error e => (CycleResult.err e, some ir.2)
      | Except.ok n => (CycleResult.success n approved_count nowIso, some ir.2)
  | _, _ => (CycleResult.err "Connection failed", db)

/-- An HTTP response: status code and flat JSON object body. -/
structure HttpResponse where
  status : Nat
  body : List (String × Value)
deriving DecidableEq

/-- The `jsonify({"error": "Unauthorized"}), 401` response. -/
def unauthorizedResponse : HttpResponse :=
  { status := 401, body := [("error", Value.strV "Unauthorized")] }

/-- The failing condition of the require_api_key decorator:
`not expected_key or api_key != expected_key` (agent.py line 221), where
`api_key = request.headers.get(X-API-Key)` and
`expected_key = os.getenv(API_KEY)`. -/
def api_key_rejected (api_key expected_key : Option String) : Bool :=
  !pyTruthyOptStr expected_key || decide (api_key ≠ expected_key)

/-- agent.py `require_api_key` decorator around a protected handler `f`
operating on state `σ` (the world the handler touches: store, forum
clients). Rejected requests get 401 and `f` is never run. -/
def require_api_key {σ : Type} (f : σ → HttpResponse × σ)
    (api_key expected_key : Option String) (st : σ) : HttpResponse × σ :=
  if api_key_rejected api_key expected_key then (unauthorizedResponse, st) else f st

/-- The f-string body of the 400 response in update_post. -/
def invalid_status_message : String :=
  "Invalid status. Must be one of [\x27New\x27, \x27AnalysisPending\x27, \x27Approved\x27, \x27Rejected\x27, \x27Deployed\x27]"

/-- The Firestore client `document(post_id).update(fields)` used by
update_post: raises NotFound when the document does not exist (never
creates), else merges the payload into the document, resolving
`SERVER_TIMESTAMP` sentinels to the write time. The NotFound message
models `str(e)` of the google.cloud exception. -/
def firestore_update (store : Store) (post_id : String) (fields : Doc)
    (now : Nat) : Except String Store :=
  match assocGet store post_id with
  | none => Except.error ("404 No document to update: " ++ post_id)
  | some d => Except.ok (assocSet store post_id (mergeDoc d (resolveDoc now fields)))

/-- agent.py `update_post(post_id)` after auth: validates `status` against
the enum before any write, then updates the document with the payload plus
an `updated_at` server timestamp, converting any store exception to a 500
error response. Returns the response and the store after the call. -/
def update_post (db : Option Store) (post_id : String) (data : Doc)
    (now : Nat) : HttpResponse × Option Store :=
  match db with
  | none =>
    ({ status := 500, body := [("error", Value.strV "Database connection failed")] }, none)
  | some store =>
    match getField data "status" with
    | some v =>
      if !((valid_statuses.map Value.strV).contains v) then
        ({ status := 400, body := [("error", Value.strV invalid_status_message)] }, some store)
      else
        match firestore_update store post_id (setField data "updated_at" Value.serverTimestamp) now with
        | Except.error e =>
          ({ status := 500, body := [("error", Value.strV e)] }, some store)
        | Except.ok st' =>
          ({ status := 200
           , body := [("message", Value.strV "Post updated successfully"), ("id", Value.strV post_id)] }, some st')
    | none =>
      match firestore_update store post_id (setField data "updated_at" Value.serverTimestamp) now with
      | Except.error e =>
        ({ status := 500, body := [("error", Value.strV e)] }, some store)
      | Except.ok st' =>
        ({ status := 200
         , body := [("message", Value.strV "Post updated successfully"), ("id", Value.strV post_id)] }, some st')

/-- agent.py `run_agent()` endpoint body after auth: runs the cycle and
maps an internal error result to HTTP 500. (Body rendering of the result
dict is abstracted; the response keeps the cycle result.) -/
def run_agent (db : Option Store) (reddit : Option RedditHandle)
    (now : Nat) (nowIso : String) : (Nat × CycleResult) × Option Store :=
  let r := run_agent_cycle db reddit now nowIso
  match r.1 with
  | CycleResult.err m => ((500, CycleResult.err m), r.2)
  | ok => ((200, ok), r.2)

/-- A plain self post used by concrete evaluations. -/
def demoSub : Submission :=
  { id := "abc", title := "T", selftext := "B", url := "u"
    author := some "alice", created_utc := 100
    stickied := false, removed_by_category := none, is_self := true }

/-- A handle whose fetch always yields just `demoSub`. -/
def demoReddit : RedditHandle := ⟨fun _ => Except.ok [demoSub]⟩

/-- The store after ingesting `demoSub` at time 1. -/
def demoStore : Store :=
  [("abc", resolveDoc 1 (new_post_data (post_data_of demoSub)))]

/-- A self post whose `removed_by_category` is the empty string: non-null
but falsy in Python. -/
def emptyRemovedSub : Submission :=
  { id := "e1", title := "T", selftext := "B", url := "u"
    author := none, created_utc := 5
    stickied := false, removed_by_category := some "", is_self := true }

/-- A one-record store used by concrete update evaluations. -/
def demoUpdateStore : Store :=
  [("p1", [("title", Value.strV "a"), ("status", Value.strV "New")])]

/-- A trivial protected handler used by concrete auth evaluations. -/
def demoHandler : Option Store → HttpResponse × Option Store :=
  fun st => ({ status := 200, body := [] }, st)

end RedditAgent

namespace ConfigService

/-- The two response shapes of config.py get_config: an error object or
the parsed configuration value. -/
inductive ConfigResponse (α : Type) where
  | errorBody (message : String)
  | configBody (config : α)
deriving DecidableEq

/-- config.py `get_config()`: reads `FIREBASE_CONFIG_JSON` (`env`),
returns 500 when it is unset or falsy (empty), 500 when `json.loads`
fails, else 200 with the parsed configuration. `loads` abstracts the
stdlib JSON decoder: `none` models a raised `JSONDecodeError`. -/
def get_config {α : Type} (loads : String → Option α) (env : Option String) :
    Nat × ConfigResponse α :=
  match env with
  | none => (500, ConfigResponse.errorBody "Firebase configuration not found in environment variables.")
  | some s =>
    if s.isEmpty then
      (500, ConfigResponse.errorBody "Firebase configuration not found in environment variables.")
    else
      match loads s with
      | some c => (200, ConfigResponse.configBody c)
      | none => (500, ConfigResponse.errorBody "Firebase configuration environment variable is not valid JSON.")

/-- A concrete JSON decoder used by evaluations: only the string "ok"
parses (to 0). -/
def demoLoads : String → Option Nat :=
  fun s => if s = "ok" then some 0 else none

end ConfigService

namespace RedditAgent

theorem assocGet_assocSet_self {β : Type} (l : List (String × β)) (k : String) (v : β) :
    assocGet (assocSet l k v) k = some v := by
  induction l with
  | nil => simp [assocSet, assocGet]
  | cons a rest ih =>
    obtain ⟨k', v'⟩ := a
    by_cases h : k' = k
    · simp [assocSet, assocGet, h]
    · simp [assocSet, assocGet, h, ih]

theorem assocGet_assocSet_ne {β : Type} (l : List (String × β)) (k j : String) (v : β)
    (h : j ≠ k) : assocGet (assocSet l k v) j = assocGet l j := by
  induction l with
  | nil => simp [assocSet, assocGet, Ne.symm h]
  | cons a rest ih =>
    obtain ⟨k', v'⟩ := a
    by_cases hk : k' = k
    · subst hk
      simp [assocSet, assocGet, Ne.symm h]
    · by_cases hj : k' = j
      · simp [assocSet, assocGet, hk, hj, h]
      · simp [assocSet, assocGet, hk, hj, ih]

theorem assocGet_eq_none_of_not_mem {β : Type} (l : List (String × β)) (k : String)
    (h : k ∉ l.map Prod.fst) : assocGet l k = none := by
  induction l with
  | nil => rfl
  | cons a rest ih =>
    obtain ⟨k', v'⟩ := a
    simp only [List.map_cons, List.mem_cons, not_or] at h
    simp [assocGet, show k' ≠ k from fun hh => h.1 hh.symm, ih h.2]

theorem mem_map_fst_assocSet {β : Type} (l : List (String × β)) (k j : String) (v : β) :
    j ∈ (assocSet l k v).map Prod.fst ↔ j ∈ l.map Prod.fst ∨ j = k := by
  induction l with
  | nil => simp [assocSet]
  | cons a rest ih =>
    obtain ⟨k', v'⟩ := a
    by_cases h : k' = k
    · subst h
      simp [assocSet]
      tauto
    · simp [assocSet, h, ih]
      tauto

theorem nodup_map_fst_assocSet {β : Type} (l : List (String × β)) (k : String) (v : β)
    (h : (l.map Prod.fst).Nodup) : ((assocSet l k v).map Prod.fst).Nodup := by
  induction l with
  | nil => simp [assocSet]
  | cons a rest ih =>
    obtain ⟨k', v'⟩ := a
    simp only [List.map_cons, List.nodup_cons] at h
    by_cases hk : k' = k
    · subst hk
      simpa [assocSet, List.nodup_cons] using h
    · simp only [assocSet, if_neg hk, List.map_cons, List.nodup_cons]
      refine ⟨?_, ih h.2⟩
      intro hmem
      rcases (mem_map_fst_assocSet rest k k' v).1 hmem with h1 | h2
      · exact h.1 h1
      · exact hk h2

theorem map_fst_resolveDoc (now : Nat) (d : Doc) :
    (resolveDoc now d).map Prod.fst = d.map Prod.fst := by
  induction d with
  | nil => rfl
  | cons a rest ih => simp [resolveDoc] at ih ⊢

theorem getField_resolveDoc (now : Nat) (d : Doc) (k : String) :
    getField (resolveDoc now d) k =
      (getField d k).map
        (fun v => if v = Value.serverTimestamp then Value.timeV now else v) := by
  induction d with
  | nil => rfl
  | cons a rest ih =>
    obtain ⟨k', v'⟩ := a
    by_cases h : k' = k
    · simp [resolveDoc, getField, assocGet, h]
    · simpa [resolveDoc, getField, assocGet, h] using ih

theorem mergeDoc_cons (d : Doc) (a : String × Value) (rest : Doc) :
    mergeDoc d (a :: rest) = mergeDoc (setField d a.1 a.2) rest := rfl

theorem getField_mergeDoc_not_mem (upd : Doc) (k : String)
    (h : k ∉ upd.map Prod.fst) :
    ∀ d : Doc, getField (mergeDoc d upd) k = getField d k := by
  induction upd with
  | nil => intro d; rfl
  | cons a rest ih =>
    intro d
    simp only [List.map_cons, List.mem_cons, not_or] at h
    rw [mergeDoc_cons, ih h.2]
    simpa [getField, setField] using assocGet_assocSet_ne d a.1 k a.2 h.1

theorem getField_mergeDoc_nodup (upd : Doc) (k : String)
    (h : (upd.map Prod.fst).Nodup) :
    ∀ d : Doc, getField (mergeDoc d upd) k =
      match getField upd k with
      | some v => some v
      | none => getField d k := by
  induction upd with
  | nil => intro d; rfl
  | cons a rest ih =>
    intro d
    obtain ⟨k', v'⟩ := a
    simp only [List.map_cons, List.nodup_cons] at h
    rw [mergeDoc_cons, ih h.2]
    by_cases hk : k' = k
    · subst hk
      have hnone : assocGet rest k' = none :=
        assocGet_eq_none_of_not_mem rest k' h.1
      simp [hnone, getField, setField, assocGet, assocGet_assocSet_self]
    · have h1 : assocGet (setField d k' v') k = assocGet d k :=
        assocGet_assocSet_ne d k' k v' (fun hh => hk hh.symm)
      cases hrk : assocGet rest k with
      | some w => simp [getField, assocGet, hk, hrk]
      | none => simp [getField, assocGet, hk, hrk, h1]

theorem fetch_or_initialize_post_of_mem (store : Store) (post_id : String)
    (data : PostData) (now : Nat) (d : Doc) (h : assocGet store post_id = some d) :
    fetch_or_initialize_post store post_id data now = (d, store) := by
  simp [fetch_or_initialize_post, h]

theorem fetch_or_initialize_post_preserves (store : Store) (post_id : String)
    (data : PostData) (now : Nat) (id : String) (d : Doc)
    (h : assocGet store id = some d) :
    assocGet (fetch_or_initialize_post store post_id data now).2 id = some d := by
  unfold fetch_or_initialize_post
  cases hc : assocGet store post_id with
  | some doc => simpa using h
  | none =>
    have hne : id ≠ post_id := by
      intro he
      rw [he, hc] at h
      cases h
    simpa [assocGet_assocSet_ne store post_id id _ hne] using h

theorem ingest_loop_filter (now : Nat) (subs : List Submission) :
    ∀ store : Store,
      ingest_loop now store subs = ingest_loop now store (subs.filter passes_filters) := by
  induction subs with
  | nil => intro store; rfl
  | cons s rest ih =>
    intro store
    by_cases h1 : (s.stickied || pyTruthyOptStr s.removed_by_category) = true
    · have hp : passes_filters s = false := by simp [passes_filters, h1]
      simp [ingest_loop, h1, List.filter_cons, hp, ih]
    · by_cases h2 : s.is_self = true
      · have hp : passes_filters s = true := by
          simp only [Bool.or_eq_true, not_or] at h1
          simp [passes_filters, h1.1, h1.2, h2]
        simp [ingest_loop, h1, h2, List.filter_cons, hp, ih]
      · have hp : passes_filters s = false := by
          simp only [Bool.not_eq_true] at h2
          simp [passes_filters, h2]
        simp [ingest_loop, h1, h2, List.filter_cons, hp, ih]

theorem ingest_loop_all_known (now : Nat) (subs : List Submission) (store : Store)
    (h : ∀ s ∈ subs, passes_filters s = true →
      ((assocGet store s.id).bind (fun d => getField d "status")).isSome = true) :
    ingest_loop now store subs =
      (Except.ok ((subs.filter passes_filters).countP (status_is_new store)), store) := by
  induction subs with
  | nil => rfl
  | cons s rest ih =>
    have hrest := ih (fun s' hs' => h s' (List.mem_cons_of_mem _ hs'))
    by_cases h1 : (s.stickied || pyTruthyOptStr s.removed_by_category) = true
    · have hp : passes_filters s = false := by simp [passes_filters, h1]
      simp [ingest_loop, h1, List.filter_cons, hp, hrest]
    · by_cases h2 : s.is_self = true
      · have hp : passes_filters s = true := by
          simp only [Bool.or_eq_true, not_or] at h1
          simp [passes_filters, h1.1, h1.2, h2]
        have hknown := h s (List.mem_cons_self _ _) hp
        obtain ⟨d, hd⟩ : ∃ d, assocGet store s.id = some d := by
          cases hc : assocGet store s.id with
          | none => rw [hc] at hknown; simp at hknown
          | some d => exact ⟨d, rfl⟩
        rw [hd] at hknown
        have hknown' : (getField d "status").isSome = true := by simpa using hknown
        obtain ⟨v, hv⟩ := Option.isSome_iff_exists.mp hknown'
        have hfetch := fetch_or_initialize_post_of_mem store s.id (post_data_of s) now d hd
        have hnew : status_is_new store s = decide (v = Value.strV "New") := by
          simp [status_is_new, hd, hv]
        simp only [List.filter_cons, hp, if_pos, List.countP_cons, hnew]
        simp [ingest_loop, h1, h2, hfetch, dict_getitem, hv, hrest, PostStatus.value]
        by_cases hveq : v = Value.strV "New"
        · simp [hveq]
        · simp [hveq]
      · have hp : passes_filters s = false := by
          simp only [Bool.not_eq_true] at h2
          simp [passes_filters, h2]
        simp [ingest_loop, h1, h2, List.filter_cons, hp, hrest]

theorem ingest_loop_preserves (now : Nat) (subs : List Submission) :
    ∀ (store : Store) (id : String) (d : Doc), assocGet store id = some d →
      assocGet (ingest_loop now store subs).2 id = some d := by
  induction subs with
  | nil =>
    intro store id d h
    simpa [ingest_loop] using h
  | cons s rest ih =>
    intro store id d h
    by_cases h1 : (s.stickied || pyTruthyOptStr s.removed_by_category) = true
    · simpa [ingest_loop, h1] using ih store id d h
    · by_cases h2 : s.is_self = true
      · have hpres :=
          fetch_or_initialize_post_preserves store s.id (post_data_of s) now id d h
        cases hg : dict_getitem
            (fetch_or_initialize_post store s.id (post_data_of s) now).1 "status" with
        | error e =>
          simpa [ingest_loop, h1, h2, hg] using hpres
        | ok v =>
          simpa [ingest_loop, h1, h2, hg] using
            ih (fetch_or_initialize_post store s.id (post_data_of s) now).2 id d hpres
      · simpa [ingest_loop, h1, h2] using ih store id d h

end RedditAgent

namespace RedditAgent

/-- C2: fetch_or_initialize_post is get-or-create by external id: when the
id is already stored it returns the existing document and leaves the store
completely unchanged (no write); when the id is absent it returns a fresh
record whose status is New and writes it under that id, leaving every
other id untouched, so at most one record is ever created per id. -/
theorem fetch_or_initialize_post_get_or_create (store : Store) (post_id : String)
    (data : PostData) (now : Nat) :
    (∀ d, assocGet store post_id = some d →
       fetch_or_initialize_post store post_id data now = (d, store)) ∧
    (assocGet store post_id = none →
       (fetch_or_initialize_post store post_id data now).1 = new_post_data data ∧
       getField (fetch_or_initialize_post store post_id data now).1 "status" =
         some (Value.strV PostStatus.NEW.value) ∧
       assocGet (fetch_or_initialize_post store post_id data now).2 post_id =
         some (resolveDoc now (new_post_data data)) ∧
       ∀ j, j ≠ post_id →
         assocGet (fetch_or_initialize_post store post_id data now).2 j =
           assocGet store j) := by
  constructor
  · intro d hd
    exact fetch_or_initialize_post_of_mem store post_id data now d hd
  · intro hnone
    refine ⟨?_, ?_, ?_, ?_⟩
    · simp [fetch_or_initialize_post, hnone]
    · simp [fetch_or_initialize_post, hnone, new_post_data, getField, assocGet,
        PostStatus.value]
    · simp [fetch_or_initialize_post, hnone, assocGet_assocSet_self]
    · intro j hj
      simp [fetch_or_initialize_post, hnone, assocGet_assocSet_ne _ _ _ _ hj]

/-- Witness for C2: applied once at an id already in the store (returned
as-is, store untouched) and once at an absent id (fresh record written). -/
theorem fetch_or_initialize_post_get_or_create_witness :
    fetch_or_initialize_post demoUpdateStore "p1" (post_data_of demoSub) 9 =
      ([("title", Value.strV "a"), ("status", Value.strV "New")], demoUpdateStore) ∧
    assocGet (fetch_or_initialize_post [] "abc" (post_data_of demoSub) 1).2 "abc" =
      some (resolveDoc 1 (new_post_data (post_data_of demoSub))) := by
  constructor
  · exact (fetch_or_initialize_post_get_or_create demoUpdateStore "p1"
      (post_data_of demoSub) 9).1 _ rfl
  · exact ((fetch_or_initialize_post_get_or_create [] "abc"
      (post_data_of demoSub) 1).2 rfl).2.2.1

/-- C3 counterexample: a non-stickied self submission whose
removed_by_category is the empty string — non-null, but falsy in Python —
is ingested: the cycle creates a record for it, contradicting the claim
that any non-null removed_by_category is never ingested. -/
theorem empty_removed_by_category_ingested :
    emptyRemovedSub.removed_by_category ≠ none ∧
    emptyRemovedSub.stickied = false ∧
    emptyRemovedSub.is_self = true ∧
    (assocGet (ingest_loop 3 [] [emptyRemovedSub]).2 emptyRemovedSub.id).isSome = true := by
  decide

/-- C3 amended: the skip test on removed_by_category is Python truthiness,
so the ingestion loop behaves exactly as if run on the submissions passing
all three filters (not stickied, removed_by_category null or empty, and a
self post): skipped submissions never reach the store lookup/creation
step, and only filtered-in submissions do. -/
theorem ingest_loop_filters_submissions (now : Nat) (store : Store)
    (subs : List Submission) :
    ingest_loop now store subs = ingest_loop now store (subs.filter passes_filters) :=
  ingest_loop_filter now subs store

end RedditAgent

namespace RedditAgent

/-- C1 counterexample: one plain self post, ingested by a first cycle;
running the cycle again with no new external submissions returns
new_posts_found = 1, not 0, while creating nothing (the store is
unchanged): a record already stored with status New is recounted. -/
theorem second_cycle_recounts_existing_new :
    (run_agent_cycle ((run_agent_cycle (some []) (some demoReddit) 1 "t1").2)
        (some demoReddit) 2 "t2").1 = CycleResult.success 1 0 "t2" ∧
    (run_agent_cycle ((run_agent_cycle (some []) (some demoReddit) 1 "t1").2)
        (some demoReddit) 2 "t2").2 =
      (run_agent_cycle (some []) (some demoReddit) 1 "t1").2 := by
  constructor <;> rfl

/-- C1 amended: new_posts_found is a post-hoc status read, not a creation
count: on a pass in which every fetched, filtered submission already has a
stored record (carrying some status field), the cycle creates nothing and
returns new_posts_found equal to the number of those records whose status
still reads New — so a second run with no new external submissions yields
the number of still-New fetched records, not necessarily 0. -/
theorem run_agent_cycle_recounts_new (store : Store) (r : RedditHandle)
    (subs : List Submission) (now : Nat) (nowIso : String)
    (hsubs : r.subreddit_new 25 = Except.ok subs)
    (h : ∀ s ∈ subs, passes_filters s = true →
      ((assocGet store s.id).bind (fun d => getField d "status")).isSome = true) :
    run_agent_cycle (some store) (some r) now nowIso =
      (CycleResult.success ((subs.filter passes_filters).countP (status_is_new store))
        (collection_where store "status" (Value.strV PostStatus.APPROVED.value) 5).length
        nowIso,
       some store) := by
  have hloop := ingest_loop_all_known now subs store h
  simp [run_agent_cycle, hsubs, hloop]

/-- Witness for C1's amended theorem: the second-run scenario, with the
one submission already stored as New: the run reports 1 and the store is
untouched. -/
theorem run_agent_cycle_recounts_new_witness :
    run_agent_cycle (some demoStore) (some demoReddit) 2 "t2" =
      (CycleResult.success 1 0 "t2", some demoStore) := by
  have h := run_agent_cycle_recounts_new demoStore demoReddit [demoSub] 2 "t2" rfl
    (by decide)
  exact h.trans (by decide)

/-- C4: run_agent_cycle never propagates an exception: with either client
handle absent it returns the error result "Connection failed" (touching
nothing); an exception raised by the forum fetch or inside the ingestion
body becomes an error result carrying the exception message; otherwise it
returns success with the new-post count, the approved count, and the
invocation timestamp. -/
theorem run_agent_cycle_total_result (db : Option Store)
    (reddit : Option RedditHandle) (now : Nat) (nowIso : String) :
    ((db = none ∨ reddit = none) →
       run_agent_cycle db reddit now nowIso = (CycleResult.err "Connection failed", db)) ∧
    (∀ store r, db = some store → reddit = some r →
       (∀ e, r.subreddit_new 25 = Except.error e →
          run_agent_cycle db reddit now nowIso = (CycleResult.err e, some store)) ∧
       (∀ subs, r.subreddit_new 25 = Except.ok subs →
          (∀ e st', ingest_loop now store subs = (Except.error e, st') →
             run_agent_cycle db reddit now nowIso = (CycleResult.err e, some st')) ∧
          (∀ n st', ingest_loop now store subs = (Except.ok n, st') →
             run_agent_cycle db reddit now nowIso =
               (CycleResult.success n
                 (collection_where store "status"
                   (Value.strV PostStatus.APPROVED.value) 5).length nowIso,
                some st')))) := by
  constructor
  · rintro (rfl | rfl)
    · cases reddit <;> rfl
    · cases db <;> rfl
  · rintro store r rfl rfl
    constructor
    · intro e he
      simp [run_agent_cycle, he]
    · intro subs hsubs
      constructor
      · intro e st' hloop
        simp [run_agent_cycle, hsubs, hloop]
      · intro n st' hloop
        simp [run_agent_cycle, hsubs, hloop]

/-- Witness for C4: the connection-failure branch at a concrete input, and
a successful concrete cycle returning both counts and the timestamp. -/
theorem run_agent_cycle_total_result_witness :
    run_agent_cycle none (some demoReddit) 0 "t" =
      (CycleResult.err "Connection failed", none) ∧
    run_agent_cycle (some []) (some demoReddit) 1 "t1" =
      (CycleResult.success 1 0 "t1", some demoStore) := by
  constructor
  · exact (run_agent_cycle_total_result none (some demoReddit) 0 "t").1 (Or.inl rfl)
  · have h := (((run_agent_cycle_total_result (some []) (some demoReddit) 1 "t1").2
      [] demoReddit rfl rfl).2 [demoSub] rfl).2 1 demoStore rfl
    exact h.trans (by decide)

end RedditAgent

namespace RedditAgent

/-- C5: a PUT body carrying a status key whose value is outside the
five-element enum is rejected with HTTP 400, and no store write happens:
the store comes back exactly as it went in (validation precedes the
update call). -/
theorem update_post_invalid_status_rejected (store : Store) (post_id : String)
    (data : Doc) (now : Nat) (v : Value)
    (h1 : getField data "status" = some v)
    (h2 : (valid_statuses.map Value.strV).contains v = false) :
    update_post (some store) post_id data now =
      ({ status := 400, body := [("error", Value.strV invalid_status_message)] },
       some store) := by
  simp only [update_post, h1, h2, Bool.not_false]
  rfl

/-- Witness for C5: a Bogus status against a one-record store: 400 and
the store untouched. -/
theorem update_post_invalid_status_rejected_witness :
    update_post (some demoUpdateStore) "p1" [("status", Value.strV "Bogus")] 7 =
      ({ status := 400, body := [("error", Value.strV invalid_status_message)] },
       some demoUpdateStore) :=
  update_post_invalid_status_rejected demoUpdateStore "p1" _ 7 (Value.strV "Bogus")
    rfl (by decide)

/-- Once the status validation passes, update_post is the store update of
the payload plus an updated_at server timestamp, with any store exception
becoming a 500 error response. -/
theorem update_post_valid_unfold (store : Store) (post_id : String) (data : Doc)
    (now : Nat) (hvalid : status_value_valid data = true) :
    update_post (some store) post_id data now =
      match firestore_update store post_id
          (setField data "updated_at" Value.serverTimestamp) now with
      | Except.error e =>
        ({ status := 500, body := [("error", Value.strV e)] }, some store)
      | Except.ok st' =>
        ({ status := 200
         , body := [("message", Value.strV "Post updated successfully"),
                    ("id", Value.strV post_id)] }, some st') := by
  cases hs : getField data "status" with
  | none => simp [update_post, hs]
  | some v =>
    have hvalid' : (valid_statuses.map Value.strV).contains v = true := by
      unfold status_value_valid at hvalid
      rw [hs] at hvalid
      simpa using hvalid
    simp only [update_post, hs, hvalid', Bool.not_true]
    rfl

/-- C6: a validation-passing update of an existing record returns 200 and
stores the partial merge of the old document with the payload: a field
absent from the payload (other than the stamped updated_at) keeps its old
value, and updated_at is always stamped with the server time of the write;
an update addressed to an absent id fails with the store's NotFound (a 500
error response) and creates no document (the store is unchanged). -/
theorem update_post_partial_merge (store : Store) (post_id : String) (data : Doc)
    (now : Nat) (hnd : (data.map Prod.fst).Nodup)
    (hvalid : status_value_valid data = true) :
    (assocGet store post_id = none →
       update_post (some store) post_id data now =
         ({ status := 500,
            body := [("error", Value.strV ("404 No document to update: " ++ post_id))] },
          some store)) ∧
    (∀ d, assocGet store post_id = some d →
       update_post (some store) post_id data now =
         ({ status := 200,
            body := [("message", Value.strV "Post updated successfully"),
                     ("id", Value.strV post_id)] },
          some (assocSet store post_id
            (mergeDoc d (resolveDoc now (setField data "updated_at" Value.serverTimestamp))))) ∧
       getField (mergeDoc d (resolveDoc now (setField data "updated_at" Value.serverTimestamp)))
           "updated_at" = some (Value.timeV now) ∧
       (∀ k, k ∉ data.map Prod.fst → k ≠ "updated_at" →
          getField
            (mergeDoc d (resolveDoc now (setField data "updated_at" Value.serverTimestamp))) k
            = getField d k)) := by
  constructor
  · intro hnone
    rw [update_post_valid_unfold store post_id data now hvalid]
    simp [firestore_update, hnone]
  · intro d hd
    refine ⟨?_, ?_, ?_⟩
    · rw [update_post_valid_unfold store post_id data now hvalid]
      simp [firestore_update, hd]
    · have hkeys : ((setField data "updated_at" Value.serverTimestamp).map Prod.fst).Nodup :=
        nodup_map_fst_assocSet data "updated_at" Value.serverTimestamp hnd
      have hkeys' :
          ((resolveDoc now (setField data "updated_at" Value.serverTimestamp)).map
            Prod.fst).Nodup := by
        rw [map_fst_resolveDoc]
        exact hkeys
      rw [getField_mergeDoc_nodup _ _ hkeys' d, getField_resolveDoc]
      simp [getField, setField, assocGet_assocSet_self]
    · intro k hk hk2
      apply getField_mergeDoc_not_mem
      rw [map_fst_resolveDoc]
      intro hmem
      rcases (mem_map_fst_assocSet data "updated_at" k Value.serverTimestamp).1 hmem with
        h1 | h2
      · exact hk h1
      · exact hk2 h2

/-- Witness for C6: an Approved-status update against an absent id (500,
nothing created) and against the present id (200, merged record with the
untouched title and a stamped updated_at). -/
theorem update_post_partial_merge_witness :
    update_post (some demoUpdateStore) "zz" [("status", Value.strV "Approved")] 7 =
      ({ status := 500,
         body := [("error", Value.strV "404 No document to update: zz")] },
       some demoUpdateStore) ∧
    update_post (some demoUpdateStore) "p1" [("status", Value.strV "Approved")] 7 =
      ({ status := 200,
         body := [("message", Value.strV "Post updated successfully"),
                  ("id", Value.strV "p1")] },
       some [("p1", [("title", Value.strV "a"), ("status", Value.strV "Approved"),
                     ("updated_at", Value.timeV 7)])]) := by
  constructor
  · have h := (update_post_partial_merge demoUpdateStore "zz"
      [("status", Value.strV "Approved")] 7 (by decide) (by decide)).1 rfl
    exact h.trans (by decide)
  · have h := ((update_post_partial_merge demoUpdateStore "p1"
      [("status", Value.strV "Approved")] 7 (by decide) (by decide)).2
      [("title", Value.strV "a"), ("status", Value.strV "New")] rfl).1
    exact h.trans (by decide)

end RedditAgent

namespace RedditAgent

/-- C7 counterexample: the stored title starts as "a"; a successful (200)
PUT whose payload sets title makes the stored title "b": an operation of
the system changes a captured-at-ingestion field after creation. -/
theorem update_post_changes_title :
    (assocGet demoUpdateStore "p1").bind (fun d => getField d "title") =
      some (Value.strV "a") ∧
    (update_post (some demoUpdateStore) "p1" [("title", Value.strV "b")] 7).1.status = 200 ∧
    ((update_post (some demoUpdateStore) "p1" [("title", Value.strV "b")] 7).2.bind
        (fun st => assocGet st "p1")).bind (fun d => getField d "title") =
      some (Value.strV "b") := by
  refine ⟨rfl, rfl, rfl⟩

/-- C7 amended: title, body, url and author are captured at ingestion and
never changed by the ingestion cycle — run_agent_cycle preserves every
existing record verbatim (it only creates records under absent ids) — but
the update endpoint performs an unrestricted partial merge and can
overwrite them; immutability holds only for ingestion, not system-wide. -/
theorem run_agent_cycle_preserves_existing_records (st : Store)
    (reddit : Option RedditHandle) (now : Nat) (nowIso : String)
    (id : String) (d : Doc) (st' : Store)
    (hid : assocGet st id = some d)
    (hout : (run_agent_cycle (some st) reddit now nowIso).2 = some st') :
    assocGet st' id = some d := by
  cases reddit with
  | none =>
    simp [run_agent_cycle] at hout
    rw [← hout]
    exact hid
  | some r =>
    cases hf : r.subreddit_new 25 with
    | error e =>
      simp [run_agent_cycle, hf] at hout
      rw [← hout]
      exact hid
    | ok subs =>
      have hp := ingest_loop_preserves now subs st id d hid
      cases hl : (ingest_loop now st subs).1 with
      | error e =>
        simp [run_agent_cycle, hf, hl] at hout
        rw [← hout]
        exact hp
      | ok n =>
        simp [run_agent_cycle, hf, hl] at hout
        rw [← hout]
        exact hp

/-- Witness for C7's amended theorem: a second cycle over the already
ingested record leaves that record's document (title, body, url, author
included) exactly as stored. -/
theorem run_agent_cycle_preserves_existing_records_witness :
    (run_agent_cycle (some demoStore) (some demoReddit) 5 "t").2 = some demoStore ∧
    assocGet demoStore "abc" =
      some (resolveDoc 1 (new_post_data (post_data_of demoSub))) := by
  refine ⟨rfl, ?_⟩
  exact run_agent_cycle_preserves_existing_records demoStore (some demoReddit) 5 "t"
    "abc" (resolveDoc 1 (new_post_data (post_data_of demoSub))) demoStore rfl rfl

/-- C8: a request whose X-API-Key header is absent or differs from the
configured shared secret gets 401 with an Unauthorized error body from
the require_api_key wrapper, for every protected handler f, before the
handler (and thus any store or forum access) runs: the state comes back
untouched. -/
theorem require_api_key_unauthorized {σ : Type} (f : σ → HttpResponse × σ)
    (api_key expected_key : Option String) (st : σ)
    (h : api_key = none ∨ api_key ≠ expected_key) :
    require_api_key f api_key expected_key st = (unauthorizedResponse, st) := by
  have hrej : api_key_rejected api_key expected_key = true := by
    rcases h with rfl | hne
    · cases expected_key with
      | none => simp [api_key_rejected, pyTruthyOptStr]
      | some s => simp [api_key_rejected]
    · simp [api_key_rejected, hne]
  simp [require_api_key, hrej]

/-- Witness for C8: a request with no header against a configured key is
rejected with 401 and an untouched state. -/
theorem require_api_key_unauthorized_witness :
    require_api_key demoHandler none (some "k") (some demoUpdateStore) =
      (unauthorizedResponse, some demoUpdateStore) :=
  require_api_key_unauthorized demoHandler none (some "k") (some demoUpdateStore)
    (Or.inl rfl)

/-- C10: fail-closed auth: when the configured API_KEY is unset or empty,
every request is rejected with 401 whatever X-API-Key header it carries —
even an empty header equal to the empty configured value. -/
theorem require_api_key_fail_closed {σ : Type} (f : σ → HttpResponse × σ)
    (api_key : Option String) (st : σ) (expected_key : Option String)
    (h : expected_key = none ∨ expected_key = some "") :
    require_api_key f api_key expected_key st = (unauthorizedResponse, st) := by
  have hrej : api_key_rejected api_key expected_key = true := by
    rcases h with rfl | rfl
    · simp [api_key_rejected, pyTruthyOptStr]
    · simp [api_key_rejected, pyTruthyOptStr]
      exact Or.inl rfl
  simp [require_api_key, hrej]

/-- Witness for C10: an empty header exactly matching the empty configured
value is still rejected. -/
theorem require_api_key_fail_closed_witness :
    require_api_key demoHandler (some "") (some "") (some demoUpdateStore) =
      (unauthorizedResponse, some demoUpdateStore) :=
  require_api_key_fail_closed demoHandler (some "") (some demoUpdateStore) (some "")
    (Or.inr rfl)

end RedditAgent

namespace ConfigService

/-- C9: get_config returns 500 with an error body when the configuration
environment variable is missing (or empty, which the code folds into the
missing branch) and when its content does not decode as JSON; otherwise it
returns 200 carrying exactly the JSON value decoded from the variable. -/
theorem get_config_cases {α : Type} (loads : String → Option α) (env : Option String) :
    ((env = none ∨ env = some "") →
       get_config loads env =
         (500, ConfigResponse.errorBody
           "Firebase configuration not found in environment variables.")) ∧
    (∀ s, env = some s → s ≠ "" → loads s = none →
       get_config loads env =
         (500, ConfigResponse.errorBody
           "Firebase configuration environment variable is not valid JSON.")) ∧
    (∀ s c, env = some s → s ≠ "" → loads s = some c →
       get_config loads env = (200, ConfigResponse.configBody c)) := by
  refine ⟨?_, ?_, ?_⟩
  · rintro (rfl | rfl) <;> rfl
  · rintro s rfl hs hl
    have he : s.isEmpty = false := by
      cases he : s.isEmpty
      · rfl
      · exact absurd ((String.isEmpty_iff s).mp he) hs
    simp [get_config, he, hl]
  · rintro s c rfl hs hl
    have he : s.isEmpty = false := by
      cases he : s.isEmpty
      · rfl
      · exact absurd ((String.isEmpty_iff s).mp he) hs
    simp [get_config, he, hl]

/-- Witness for C9: a missing variable, an undecodable value, and a
decodable value, against the concrete demo decoder. -/
theorem get_config_cases_witness :
    get_config demoLoads none =
      (500, ConfigResponse.errorBody
        "Firebase configuration not found in environment variables.") ∧
    get_config demoLoads (some "bad") =
      (500, ConfigResponse.errorBody
        "Firebase configuration environment variable is not valid JSON.") ∧
    get_config demoLoads (some "ok") = (200, ConfigResponse.configBody 0) := by
  refine ⟨?_, ?_, ?_⟩
  · exact (get_config_cases demoLoads none).1 (Or.inl rfl)
  · exact (get_config_cases demoLoads (some "bad")).2.1 "bad" rfl (by decide) rfl
  · exact (get_config_cases demoLoads (some "ok")).2.2 "ok" 0 rfl (by decide) rfl

end ConfigService
